import Mathlib

/-!
Verification development for the Plants Hub catalog application.

The repository is a Flask CRUD app (`app.py`, first revision, lines 1-437 —
the authoritative ImageKit-only variant; the file also contains two older
concatenated revisions) together with an ImageKit gateway
(`imagekit_client.py`) and a SQLAlchemy model (`models.py`).

This file shallowly embeds the code that the specification talks about:

* the catalog query builder of the `index` route (search / category /
  price filters, ordering, autocomplete suggestions);
* the image-upload gateway (`is_configured`, `masked_config`,
  `upload_image`, `delete_image`);
* the `add_product`, `edit_product`, `delete_product` and `/upload` route
  handlers of the first `app.py` revision, plus the price validation of
  the second revision's `add_product` (app.py lines 706-717).

Modelling conventions:

* machine strings are Lean `String`s; Python `str.strip` / `str.lower` /
  `float` / `int` are embedded over `List Char` (ASCII case folding; the
  finite, infinite and NaN results of `float` are all represented);
* SQL `NUMERIC` values and parsed prices are exact scaled decimals
  `num / 10 ^ scale` (`DecNum`), compared by cross multiplication —
  no floating-point rounding is modelled (no claim depends on it);
* the product table is a `List Product` in insertion order; a SQL query
  is its filter, and `ORDER BY created_at DESC` is denoted by a stable
  (insertion-sort) descending sort;
* the external provider is an oracle parameter (`SdkBehavior`,
  `DeleteBehavior`) covering every result shape the code branches on,
  including a raised exception; the boolean / call-list component of the
  gateway functions records whether the provider network call
  (`upload_file` / `delete_file`) was performed and with which argument.
-/

/-! ## Python string and number primitives -/

/-- Python `str.strip` whitespace set (ASCII fragment). -/
def pyWs (c : Char) : Bool :=
  c == ' ' || c == '\t' || c == '\n' || c == '\r' || c == '\x0b' || c == '\x0c'

/-- Embedding of Python `str.strip()`. -/
def pyStrip (s : String) : String :=
  String.mk (((s.toList.dropWhile pyWs).reverse.dropWhile pyWs).reverse)

/-- ASCII lower-casing of a string; models Python `str.lower` (and
`str.casefold`, which agrees with it on ASCII data). -/
def lowerStr (s : String) : String :=
  String.mk (s.toList.map Char.toLower)

/-- Truthiness of an optional string, as Python evaluates `if v:` —
`None` and the empty string are falsy. -/
def optTruthy : Option String → Bool
  | none => false
  | some s => s != ""

/-- Powers of ten, structurally recursive so that the kernel can
evaluate them. -/
def pow10 : Nat → Nat
  | 0 => 1
  | n + 1 => 10 * pow10 n

/-- Maximal digit group with single underscores between digits, as in
Python numeric literals accepted by `int()` / `float()` (e.g. `1_000`).
Returns the accumulated value, the digit count and the unconsumed rest. -/
def digitGroupGo : List Char → Nat → Nat → Nat × Nat × List Char
  | [], acc, n => (acc, n, [])
  | '_' :: d :: rest, acc, n =>
      if d.isDigit then digitGroupGo rest (acc * 10 + (d.toNat - 48)) (n + 1)
      else (acc, n, '_' :: d :: rest)
  | c :: rest, acc, n =>
      if c.isDigit then digitGroupGo rest (acc * 10 + (c.toNat - 48)) (n + 1)
      else (acc, n, c :: rest)

/-- A digit group must start with a digit. -/
def digitGroup : List Char → Option (Nat × Nat × List Char)
  | c :: rest => if c.isDigit then some (digitGroupGo rest (c.toNat - 48) 1) else none
  | [] => none

/-- Exact scaled decimal `num / 10 ^ scale`: the value domain of parsed
prices and of the SQL `NUMERIC` price column. -/
structure DecNum where
  num : Int
  scale : Nat
deriving Repr, DecidableEq

/-- Rational value of a scaled decimal (used only in specification
statements and sanity lemmas). -/
def DecNum.toRat (d : DecNum) : ℚ :=
  (d.num : ℚ) / (pow10 d.scale : ℚ)

/-- Less-or-equal on scaled decimals by cross multiplication. -/
def DecNum.ble (a b : DecNum) : Bool :=
  decide (a.num * (pow10 b.scale : Int) ≤ b.num * (pow10 a.scale : Int))

/-- Result of Python `float()` on a string: a finite decimal, a signed
infinity, or NaN. -/
inductive PyFloat where
  | fin : DecNum → PyFloat
  | inf : Bool → PyFloat
  | nan : PyFloat
deriving Repr, DecidableEq

/-- Assemble the decimal from integer part, fractional part and signed
decimal exponent. -/
def mkDecNum (neg : Bool) (iv fv fcnt ev : Nat) (eneg : Bool) : DecNum :=
  let base : Int := Int.ofNat (iv * pow10 fcnt + fv)
  let base : Int := if neg then -base else base
  if eneg then { num := base, scale := fcnt + ev }
  else { num := base * Int.ofNat (pow10 ev), scale := fcnt }

/-- Finite-number fragment of Python `float()`: `[digits][.digits][e[±]digits]`,
at least one digit before the exponent, full consumption. -/
def parseFinite (neg : Bool) (l : List Char) : Option PyFloat :=
  let step1 : Nat × Nat × List Char :=
    match digitGroup l with
    | some r => r
    | none => (0, 0, l)
  let iv := step1.1; let icnt := step1.2.1; let r1 := step1.2.2
  let step2 : Nat × Nat × List Char :=
    match r1 with
    | '.' :: r =>
        (match digitGroup r with
         | some g => g
         | none => (0, 0, r))
    | _ => (0, 0, r1)
  let fv := step2.1; let fcnt := step2.2.1; let r2 := step2.2.2
  if icnt + fcnt = 0 then none
  else
    match r2 with
    | [] => some (.fin (mkDecNum neg iv fv fcnt 0 false))
    | e :: r3 =>
      if e == 'e' || e == 'E' then
        let estep : Bool × List Char :=
          match r3 with
          | '+' :: r => (false, r)
          | '-' :: r => (true, r)
          | r => (false, r)
        match digitGroup estep.2 with
        | some (ev, _, []) => some (.fin (mkDecNum neg iv fv fcnt ev estep.1))
        | _ => none
      else none

/-- Embedding of Python `float()` on an (already stripped) string:
`none` models a raised `ValueError`.  Covers sign, `inf`/`infinity`/`nan`
(case-insensitively) and finite decimals with optional exponent and
underscore digit separators. -/
def pyFloat? (s : String) : Option PyFloat :=
  match s.toList with
  | [] => none
  | l =>
    let sgn : Bool × List Char :=
      match l with
      | '+' :: r => (false, r)
      | '-' :: r => (true, r)
      | r => (false, r)
    let neg := sgn.1
    let body := sgn.2.map Char.toLower
    if body = ['i', 'n', 'f'] || body = ['i', 'n', 'f', 'i', 'n', 'i', 't', 'y'] then
      some (.inf !neg)
    else if body = ['n', 'a', 'n'] then some .nan
    else parseFinite neg sgn.2

/-- Embedding of Python `int()` on an (already stripped) string:
optional sign, then a digit group consuming the whole string. -/
def pyInt? (s : String) : Option Int :=
  match s.toList with
  | [] => none
  | l =>
    let sgn : Bool × List Char :=
      match l with
      | '+' :: r => (false, r)
      | '-' :: r => (true, r)
      | r => (false, r)
    match digitGroup sgn.2 with
    | some (v, _, []) => some (if sgn.1 then -(v : Int) else (v : Int))
    | _ => none

/-- The quantity computation shared by `add_product` and `edit_product`
(app.py lines 192-197 and 281-286): `int(quantity)`, clamping parsed
negatives to 0 and defaulting to 0 on `ValueError`. -/
def quantityOf (s : String) : Int :=
  match pyInt? s with
  | some n => if n < 0 then 0 else n
  | none => 0

/-- Is the parsed price negative (`price_val < 0` in Python, where
`-inf < 0` is true and `nan < 0` is false)? -/
def pfNeg : PyFloat → Bool
  | .fin d => decide (d.num < 0)
  | .inf pos => !pos
  | .nan => false

/-! ## SQL LIKE matching -/

/-- Fuel-driven SQL `LIKE` matcher over characters: `%` matches any
sequence, `_` any single character; other characters literally.
Escape sequences are dialect-dependent and not part of the generated
patterns, so they are not modelled.  The fuel is only a structural
device; `pattern.length + s.length + 1` always suffices. -/
def likeMatchFuel : Nat → List Char → List Char → Bool
  | 0, _, _ => false
  | _ + 1, [], s => s.isEmpty
  | fuel + 1, '%' :: ps, s =>
      likeMatchFuel fuel ps s ||
        (match s with
         | [] => false
         | _ :: s' => likeMatchFuel fuel ('%' :: ps) s')
  | fuel + 1, c :: ps, s =>
      match s with
      | [] => false
      | c' :: s' => (c == '_' || c == c') && likeMatchFuel fuel ps s'

/-- Case-insensitive LIKE (`column.ilike(pattern)`). -/
def ilike (s pattern : String) : Bool :=
  let sl := s.toList.map Char.toLower
  let pl := pattern.toList.map Char.toLower
  likeMatchFuel (pl.length + sl.length + 1) pl sl

/-- `ilike` against a nullable column: SQL `NULL` never matches. -/
def optIlike : Option String → String → Bool
  | none, _ => false
  | some s, pattern => ilike s pattern

/-! ## Data model: the `products` table (models.py) -/

/-- A row of the `products` table (models.py lines 13-48), extended with
the `image_file_id` column added by the migration in app.py lines 54-77.
Timestamps are abstract ticks. -/
structure Product where
  id : Nat
  name : String
  description : Option String
  category : Option String
  price : DecNum
  quantity : Int
  image_url : Option String
  image_file_id : Option String
  created_at : Nat
  updated_at : Nat
deriving Repr, DecidableEq

/-- Ordering relation of `ORDER BY created_at DESC`. -/
def createdDesc (p q : Product) : Prop :=
  q.created_at ≤ p.created_at

instance : DecidableRel createdDesc := fun p q => Nat.decLe q.created_at p.created_at

instance : IsTotal Product createdDesc :=
  ⟨fun a b => (Nat.le_total b.created_at a.created_at).imp id id⟩

instance : IsTrans Product createdDesc :=
  ⟨fun _ _ _ h h' => Nat.le_trans h' h⟩

/-! ## Catalog query builder (`index` route, app.py lines 93-156) -/

/-- The search clause of app.py lines 102-104:
`or_(Product.name.ilike(term), Product.description.ilike(term))` with
`term = f"%{search_query}%"`. -/
def searchPred (sq : String) (p : Product) : Bool :=
  ilike p.name ("%" ++ sq ++ "%") || optIlike p.description ("%" ++ sq ++ "%")

/-- `price >= float(min_price)`: SQL comparison of the `NUMERIC` price
against the parsed bound (IEEE semantics for `±inf` / `nan`). -/
def priceGE (v : PyFloat) (p : Product) : Bool :=
  match v with
  | .fin d => DecNum.ble d p.price
  | .inf pos => !pos
  | .nan => false

/-- `price <= float(max_price)`. -/
def priceLE (v : PyFloat) (p : Product) : Bool :=
  match v with
  | .fin d => DecNum.ble p.price d
  | .inf pos => pos
  | .nan => false

/-- app.py lines 107-111: the `min_price` filter is applied only when the
(stripped) string is non-empty and `float()` does not raise. -/
def priceLowFilter (mn : String) (l : List Product) : List Product :=
  if mn = "" then l
  else
    match pyFloat? mn with
    | some v => l.filter (priceGE v)
    | none => l

/-- app.py lines 112-116, same for `max_price`. -/
def priceHighFilter (mx : String) (l : List Product) : List Product :=
  if mx = "" then l
  else
    match pyFloat? mx with
    | some v => l.filter (priceLE v)
    | none => l

/-- app.py lines 102-104: the search filter is applied only when the
stripped search text is non-empty. -/
def searchFilter (sq : String) (l : List Product) : List Product :=
  if sq ≠ "" then l.filter (searchPred sq) else l

/-- app.py lines 105-106: the category equality filter is applied
unless the (already normalised) category is the sentinel `all`. -/
def categoryFilter (cat : String) (l : List Product) : List Product :=
  if cat ≠ "" ∧ cat ≠ "all" then l.filter (fun p => p.category == some cat) else l

/-- Query parameters of `GET /` (absent parameters are the empty
string, matching `request.args.get(..., '')`). -/
structure IndexParams where
  search : String
  category : String
  min_price : String
  max_price : String
deriving Repr, DecidableEq

/-- app.py lines 96-116: parameter normalisation and the four
sequentially applied filters. -/
def indexFiltered (table : List Product) (ps : IndexParams) : List Product :=
  let sq := pyStrip ps.search
  let cat0 := pyStrip ps.category
  let cat := if cat0 = "" then "all" else cat0
  let mn := pyStrip ps.min_price
  let mx := pyStrip ps.max_price
  priceHighFilter mx (priceLowFilter mn (categoryFilter cat (searchFilter sq table)))

/-- app.py line 118: `q.order_by(Product.created_at.desc()).all()`.
`indexProducts` picks one admissible result of the query (a stable
descending sort); the guarantee the SQL actually provides is captured
by `isIndexQueryResult` below — the bare `ORDER BY` fixes no order
between rows with equal `created_at`. -/
def indexProducts (table : List Product) (ps : IndexParams) : List Product :=
  List.insertionSort createdDesc (indexFiltered table ps)

/-- What the bare `ORDER BY created_at DESC` of app.py line 118
guarantees about the returned list: it is some permutation of the
filtered rows, sorted by creation time descending.  SQL fixes no order
between rows with equal `created_at`, so every such list is an
admissible query result. -/
def isIndexQueryResult (table : List Product) (ps : IndexParams) (out : List Product) : Prop :=
  List.Perm out (indexFiltered table ps) ∧ List.Sorted createdDesc out

/-- The case-insensitive comparison key for autocomplete suggestions
(`key=str.casefold`; ASCII fragment). -/
def nameKey (s : String) : List Char :=
  s.toList.map Char.toLower

/-- Sort relation of `sorted(..., key=str.casefold)`. -/
def casefoldLe (s t : String) : Prop :=
  nameKey s ≤ nameKey t

instance : DecidableRel casefoldLe := fun s t =>
  inferInstanceAs (Decidable (nameKey s ≤ nameKey t))

instance : IsTotal String casefoldLe :=
  ⟨fun a b => le_total (nameKey a) (nameKey b)⟩

instance : IsTrans String casefoldLe :=
  ⟨fun _ _ _ h h' => le_trans h h'⟩

/-- app.py line 132: distinct product names over the entire table,
sorted case-insensitively.  SQL `DISTINCT` yields each name once (in
unspecified order, here denoted by `dedup`); Python's stable `sorted`
then orders them by the casefolded key. -/
def indexSuggestions (table : List Product) : List String :=
  List.insertionSort casefoldLe (table.map (fun p => p.name)).dedup

/-- The pair rendered by the `index` route: the filtered product list
and the autocomplete suggestions. -/
def indexPage (table : List Product) (ps : IndexParams) : List Product × List String :=
  (indexProducts table ps, indexSuggestions table)

/-! ## Image upload gateway (imagekit_client.py) -/

/-- Environment-derived module state of `imagekit_client.py` lines 14-64:
the three credentials, whether the SDK import succeeded, and whether
constructing the client raised. -/
structure IKConfig where
  publicKey : Option String
  privateKey : Option String
  urlEndpoint : Option String
  sdkAvailable : Bool
  initOk : Bool
deriving Repr, DecidableEq

/-- `is_configured()` (lines 67-68): the module-level `_client` is
non-`None` iff the SDK imported, all three credentials are truthy and
the constructor did not raise (lines 49-59). -/
def is_configured (c : IKConfig) : Bool :=
  c.sdkAvailable && optTruthy c.publicKey && optTruthy c.privateKey &&
    optTruthy c.urlEndpoint && c.initOk

/-- First three characters of a string. -/
def strTake3 (s : String) : String :=
  String.mk (s.toList.take 3)

/-- Last three characters of a string (`v[-3:]`). -/
def strLast3 (s : String) : String :=
  String.mk (s.toList.drop (s.toList.length - 3))

/-- The `redact` helper of `masked_config` (lines 72-77): falsy values
map to `None`, short values to `"***"`, longer ones keep only the first
and last three characters. -/
def redact : Option String → Option String
  | none => none
  | some v =>
      if v = "" then none
      else if v.length ≤ 6 then some "***"
      else some (strTake3 v ++ "***" ++ strLast3 v)

/-- The dictionary returned by `masked_config()`. -/
structure MaskedConfig where
  public_key : Option String
  private_key : Option String
  url_endpoint : Option String
deriving Repr, DecidableEq

/-- `masked_config()` (lines 71-82): the two keys are redacted; the
`url_endpoint` entry is passed through unredacted. -/
def masked_config (c : IKConfig) : MaskedConfig :=
  { public_key := redact c.publicKey
    private_key := redact c.privateKey
    url_endpoint := c.urlEndpoint }

/-- A file-like upload argument: the optional `.filename` attribute
(Werkzeug `FileStorage`), the optional `.name` attribute (e.g.
`io.BytesIO`), and the stream length in bytes. -/
structure UploadFile where
  filename : Option String
  nameAttr : Option String
  size : Nat
deriving Repr, DecidableEq

/-- `getattr(file, 'filename', None) or getattr(file, 'name', 'upload')`
(line 98). -/
def resolveFilename (f : UploadFile) : String :=
  match f.filename with
  | some s => if s ≠ "" then s else f.nameAttr.getD "upload"
  | none => f.nameAttr.getD "upload"

/-- The shapes of `_client.upload_file(...)` results the code branches
on (lines 136-163): a falsy result, an object with a `url` attribute, a
`response_metadata` payload, a plain dict, or some other truthy object
with none of these.  A provider-supplied `None` name is modelled as an
absent name (the code then falls back to the file name). -/
inductive SdkUploadResult where
  | falsy
  | attrs (url : Option String) (fileId : Option String) (name : Option String)
  | metadata (url : Option String) (fileId : Option String) (name : Option String)
  | plainDict (url : Option String) (fileId : Option String) (name : Option String)
  | otherObj
deriving Repr, DecidableEq

/-- Oracle for the provider upload call: it either raises or returns a
result of one of the shapes above. -/
inductive SdkBehavior where
  | raises (msg : String)
  | returns (r : SdkUploadResult)
deriving Repr, DecidableEq

/-- Return value of `upload_image`: the success dict `{url, file_id,
name}` or the failure dict `{error, message}`. -/
inductive UploadResult where
  | success (url : String) (fileId : Option String) (name : String)
  | failure (code : String) (message : String)
deriving Repr, DecidableEq

/-- Field extraction of lines 140-163: the `url` / `file_id` / `name`
obtained from each result shape, with `name` defaulting to the resolved
file name. -/
def extractFields (filename : String) : SdkUploadResult → Option String × Option String × String
  | .falsy => (none, none, filename)
  | .attrs url fid nm => (url, fid, nm.getD filename)
  | .metadata url fid nm => (url, fid, nm.getD filename)
  | .plainDict url fid nm => (url, fid, nm.getD filename)
  | .otherObj => (none, none, filename)

/-- `upload_image(file, folder)` (lines 85-186).  The second component
records whether the provider network call `_client.upload_file` was
performed.  All failures are returned as structured dicts; the
surrounding `try`/`except` converts any provider exception into the
`exception` failure, so nothing is raised past the boundary. -/
def upload_image (cfg : IKConfig) (f : UploadFile) (beh : SdkBehavior) :
    UploadResult × Bool :=
  if ¬ is_configured cfg then
    (.failure "not_configured" "ImageKit not configured. Check environment variables.", false)
  else if f.size = 0 then
    (.failure "empty_file" "The uploaded file is empty", false)
  else
    match beh with
    | .raises msg => (.failure "exception" ("Upload failed: " ++ msg), true)
    | .returns r =>
      match r with
      | .falsy => (.failure "empty_result" "Upload returned no result from ImageKit", true)
      | shape =>
        let fields := extractFields (resolveFilename f) shape
        match fields.1 with
        | some u =>
            if u ≠ "" then (.success u fields.2.1 fields.2.2, true)
            else (.failure "no_url" "Upload succeeded but no URL was returned from ImageKit", true)
        | none => (.failure "no_url" "Upload succeeded but no URL was returned from ImageKit", true)

/-- Oracle for `_client.delete_file`. -/
inductive DeleteBehavior where
  | raises (msg : String)
  | succeeds
deriving Repr, DecidableEq

/-- Return value of `delete_image`: `True` or a failure dict. -/
inductive DeleteResult where
  | ok
  | err (code : String) (message : String)
deriving Repr, DecidableEq

/-- `delete_image(file_id)` (lines 189-207).  The second component is
the list of provider `delete_file` calls performed (by argument).
Exceptions from the provider are caught and returned as dicts. -/
def delete_image (cfg : IKConfig) (fid : String) (beh : DeleteBehavior) :
    DeleteResult × List String :=
  if ¬ is_configured cfg then
    (.err "not_configured" "ImageKit not configured. Cannot delete image.", [])
  else if fid = "" then
    (.err "invalid_id" "No file_id provided", [])
  else
    match beh with
    | .succeeds => (.ok, [fid])
    | .raises msg => (.err "exception" msg, [fid])

/-! ## Route handlers (app.py, first revision) -/

/-- `ALLOWED_EXTENSIONS` (app.py line 83). -/
def allowedExtensions : List String := ["png", "jpg", "jpeg", "gif"]

/-- Characters after the last dot, if any (`filename.rsplit('.', 1)[1]`
when `'.' in filename`). -/
def afterLastDot : List Char → Option (List Char)
  | [] => none
  | c :: rest =>
    match afterLastDot rest with
    | some e => some e
    | none => if c == '.' then some rest else none

/-- `allowed_file` (app.py lines 86-87). -/
def allowed_file (filename : String) : Bool :=
  match afterLastDot filename.toList with
  | some ext => allowedExtensions.contains (String.mk (ext.map Char.toLower))
  | none => false

/-- Is a file part actually chosen?  Werkzeug `FileStorage` truthiness
is `bool(filename)`, so `f and f.filename` holds iff the filename is a
non-empty string. -/
def fileChosen (f : UploadFile) : Bool :=
  optTruthy f.filename

/-- The filename used for `allowed_file` in the routes
(`f.filename`, which is non-empty whenever `fileChosen`). -/
def formFileName (f : UploadFile) : String :=
  f.filename.getD ""

/-- `POST /add` form fields (app.py lines 174-180); `none` models an
absent field, matching `request.form.get(...)` defaults. -/
structure AddForm where
  product_name : Option String
  price : Option String
  description : Option String
  category : Option String
  quantity : Option String
  uploaded_image_url : Option String
  uploaded_image_id : Option String
  image : Option UploadFile
deriving Repr, DecidableEq

/-- Outcome of the `add_product` POST handler: the three validation
redirects, the rolled-back persistence failure, or the committed
product. -/
inductive AddOutcome where
  | nameRequired
  | invalidPrice
  | invalidFileType
  | dbError
  | created (p : Product)
deriving Repr, DecidableEq

/-- Tag collapsing the created product, used to state that a form field
cannot change whether the operation is accepted. -/
def AddOutcome.kindTag : AddOutcome → Nat
  | .nameRequired => 0
  | .invalidPrice => 1
  | .invalidFileType => 2
  | .dbError => 3
  | .created _ => 4

/-- `add_product` POST flow of the first revision (app.py lines
172-238).  `newId` and `now` stand for the database-assigned id and the
commit timestamp.  A non-finite parsed price is denoted by the
persistence-failure path (`dbError`): `float('inf')`/`float('nan')`
passes the handler's parse but cannot be committed into the
`NUMERIC(10,2)` column, so the transaction rolls back (the real handler
would still have attempted the image upload first; no claim depends on
that call, so it is not tracked here). -/
def add_product (cfg : IKConfig) (beh : SdkBehavior) (form : AddForm)
    (table : List Product) (newId : Nat) (now : Nat) : AddOutcome × List Product :=
  let name := pyStrip (form.product_name.getD "")
  let price := pyStrip (form.price.getD "")
  let description := pyStrip (form.description.getD "")
  let category := pyStrip (form.category.getD "other")
  let quantity := pyStrip (form.quantity.getD "0")
  let uploaded_url := pyStrip (form.uploaded_image_url.getD "")
  let uploaded_id := pyStrip (form.uploaded_image_id.getD "")
  if name = "" then (.nameRequired, table)
  else
    match pyFloat? price with
    | none => (.invalidPrice, table)
    | some (.inf _) => (AddOutcome.dbError, table)
    | some .nan => (AddOutcome.dbError, table)
    | some (.fin priceVal) =>
      let qty := quantityOf quantity
      let mkCreated : Option String → Option String → AddOutcome × List Product :=
        fun image_url image_file_id =>
          let p : Product :=
            { id := newId, name := name, description := some description
              category := some category, price := priceVal, quantity := qty
              image_url := image_url, image_file_id := image_file_id
              created_at := now, updated_at := now }
          (.created p, table ++ [p])
      if uploaded_url ≠ "" then
        mkCreated (some uploaded_url) (if uploaded_id ≠ "" then some uploaded_id else none)
      else
        match form.image with
        | some f =>
          if fileChosen f then
            if allowed_file (formFileName f) then
              match (upload_image cfg f beh).1 with
              | .success u fid _ => mkCreated (some u) fid
              | .failure _ _ => mkCreated none none
            else (.invalidFileType, table)
          else mkCreated none none
        | none => mkCreated none none

/-- `POST /edit/<id>` form fields (app.py lines 260-267). -/
structure EditForm where
  product_name : Option String
  price : Option String
  description : Option String
  category : Option String
  quantity : Option String
  keep_image : Option String
  uploaded_image_url : Option String
  uploaded_image_id : Option String
  image : Option UploadFile
deriving Repr, DecidableEq

/-- Outcome of the `edit_product` POST handler. -/
inductive EditOutcome where
  | notFound
  | nameRequired
  | invalidPrice
  | invalidFileType
  | dbError
  | updated (p : Product)
deriving Repr, DecidableEq

/-- Tag collapsing the updated product (see `AddOutcome.kindTag`). -/
def EditOutcome.kindTag : EditOutcome → Nat
  | .notFound => 0
  | .nameRequired => 1
  | .invalidPrice => 2
  | .invalidFileType => 3
  | .dbError => 4
  | .updated _ => 5

/-- `edit_product` POST flow of the first revision (app.py lines
243-337).  Returns the outcome, the table after the request, and the
list of provider `delete_file` calls performed.  The price block
(lines 273-279) rejects both unparseable and negative prices; a
non-finite parsed non-negative price is denoted by the
persistence-failure path as in `add_product`. -/
def edit_product (cfg : IKConfig) (upBeh : SdkBehavior) (delBeh : DeleteBehavior)
    (form : EditForm) (table : List Product) (pid : Nat) (now : Nat) :
    EditOutcome × List Product × List String :=
  match table.find? (fun p => p.id == pid) with
  | none => (.notFound, table, [])
  | some product =>
    let name := pyStrip (form.product_name.getD "")
    let price := pyStrip (form.price.getD "")
    let description := pyStrip (form.description.getD "")
    let category := pyStrip (form.category.getD "other")
    let quantity := pyStrip (form.quantity.getD "0")
    let keep_image := form.keep_image == some "yes"
    let uploaded_url := pyStrip (form.uploaded_image_url.getD "")
    let uploaded_id := pyStrip (form.uploaded_image_id.getD "")
    if name = "" then (.nameRequired, table, [])
    else
      match pyFloat? price with
      | none => (.invalidPrice, table, [])
      | some pv =>
        if pfNeg pv then (.invalidPrice, table, [])
        else
          match pv with
          | .inf _ => (EditOutcome.dbError, table, [])
          | .nan => (EditOutcome.dbError, table, [])
          | .fin priceVal =>
            let qty := quantityOf quantity
            let current_url := product.image_url
            let current_id := product.image_file_id
            let base_url := if keep_image then current_url else none
            let base_id := if keep_image then current_id else none
            let oldDeletion : List String :=
              if !keep_image && optTruthy current_id then
                (delete_image cfg (current_id.getD "") delBeh).2
              else []
            let commitUpdate : Option String → Option String → List String →
                EditOutcome × List Product × List String :=
              fun new_url new_id calls =>
                let p' : Product :=
                  { product with
                      name := name, description := some description
                      category := some category, price := priceVal, quantity := qty
                      image_url := new_url, image_file_id := new_id, updated_at := now }
                (.updated p', table.map (fun q => if q.id == pid then p' else q), calls)
            if uploaded_url ≠ "" then
              commitUpdate (some uploaded_url)
                (if uploaded_id ≠ "" then some uploaded_id else none) oldDeletion
            else
              match form.image with
              | some f =>
                if fileChosen f then
                  if allowed_file (formFileName f) then
                    match (upload_image cfg f upBeh).1 with
                    | .success u fid _ => commitUpdate (some u) fid oldDeletion
                    | .failure _ _ => commitUpdate base_url base_id []
                  else (.invalidFileType, table, [])
                else commitUpdate base_url base_id []
              | none => commitUpdate base_url base_id []

/-- Outcome of `POST /delete/<id>`. -/
inductive DelOutcome where
  | notFound
  | deleted (name : String)
deriving Repr, DecidableEq

/-- `delete_product` of the first revision (app.py lines 352-366): look
the product up, best-effort delete its provider image when
`image_file_id` is truthy (the result of `delete_image` is discarded),
then delete the row and commit.  Returns the outcome, the table after
the request, and the provider `delete_file` calls performed. -/
def delete_product (cfg : IKConfig) (delBeh : DeleteBehavior)
    (table : List Product) (pid : Nat) : DelOutcome × List Product × List String :=
  match table.find? (fun p => p.id == pid) with
  | none => (.notFound, table, [])
  | some product =>
    let calls :=
      if optTruthy product.image_file_id then
        (delete_image cfg (product.image_file_id.getD "") delBeh).2
      else []
    (.deleted product.name, table.eraseP (fun q => q.id == pid), calls)

/-- JSON responses of `POST /upload` (app.py lines 372-397). -/
inductive ApiResp where
  | notConfigured (config : MaskedConfig)
  | noImage
  | emptyFile
  | invalidType
  | uploadFailed (message : String) (code : Option String) (config : Option MaskedConfig)
  | ok (url : String) (fileId : Option String) (name : String)
deriving Repr, DecidableEq

/-- `api_upload_image` of the first revision (app.py lines 372-397):
the unconfigured 500 response exposes `masked_config()`, as does an
upload failure whose code is `not_configured`. -/
def api_upload_image (cfg : IKConfig) (beh : SdkBehavior) (file? : Option UploadFile) :
    ApiResp :=
  if ¬ is_configured cfg then .notConfigured (masked_config cfg)
  else
    match file? with
    | none => .noImage
    | some f =>
      if ¬ fileChosen f then .emptyFile
      else if ¬ allowed_file (formFileName f) then .invalidType
      else
        match (upload_image cfg f beh).1 with
        | .success u fid nm => .ok u fid nm
        | .failure c m =>
            .uploadFailed m (some c)
              (if c = "not_configured" then some (masked_config cfg) else none)

/-- Price validation of the second revision's `add_product` (app.py
lines 706-717), which — unlike the first revision's add handler —
rejects negative prices with a user-visible message. -/
inductive PriceCheckV2 where
  | required
  | negativeRejected
  | invalidFormat
  | ok (v : PyFloat)
deriving Repr, DecidableEq

/-- app.py lines 706-717: empty price is required; `float` failure is a
format error; a parsed negative is rejected before any persistence. -/
def validate_price_add_v2 (priceRaw : Option String) : PriceCheckV2 :=
  let price := pyStrip (priceRaw.getD "")
  if price = "" then .required
  else
    match pyFloat? price with
    | none => .invalidFormat
    | some pv => if pfNeg pv then .negativeRejected else .ok pv

/-! ## Filter clauses: the conjunction the sequential filters compute -/

/-- Search conjunct: a no-op when the stripped search text is empty. -/
def searchClause (sq : String) (p : Product) : Bool :=
  if sq ≠ "" then searchPred sq p else true

/-- Category conjunct: a no-op for the sentinel `all` (or empty). -/
def categoryClause (cat : String) (p : Product) : Bool :=
  if cat ≠ "" ∧ cat ≠ "all" then p.category == some cat else true

/-- Lower price conjunct: a no-op when absent or unparseable. -/
def priceLowClause (mn : String) (p : Product) : Bool :=
  if mn = "" then true
  else
    match pyFloat? mn with
    | some v => priceGE v p
    | none => true

/-- Upper price conjunct: a no-op when absent or unparseable. -/
def priceHighClause (mx : String) (p : Product) : Bool :=
  if mx = "" then true
  else
    match pyFloat? mx with
    | some v => priceLE v p
    | none => true

/-- The conjunction of the four supplied predicates, over normalised
parameters — what the sequentially built query amounts to. -/
def matchesFilters (s c mn mx : String) (p : Product) : Bool :=
  searchClause (pyStrip s) p &&
    categoryClause (if pyStrip c = "" then "all" else pyStrip c) p &&
    priceLowClause (pyStrip mn) p &&
    priceHighClause (pyStrip mx) p

/-! ## Specification-level search predicate (for claim C1)

The claim describes the search filter as a case-insensitive *substring*
match.  The following definitions follow the claim's words, to be
compared with the `ilike` behaviour of the code. -/

/-- Does `hay` start with `needle` (character lists)? -/
def startsWithChars : List Char → List Char → Bool
  | _, [] => true
  | [], _ :: _ => false
  | a :: as, b :: bs => a == b && startsWithChars as bs

/-- Does `hay` contain `needle` as a contiguous substring? -/
def listContainsSub : List Char → List Char → Bool
  | [], needle => needle.isEmpty
  | h :: t, needle => startsWithChars (h :: t) needle || listContainsSub t needle

/-- Modelled from the spec's words (claim C1): case-insensitive substring
match of the search text against name or description. -/
def specSearchMatch (q : String) (p : Product) : Bool :=
  listContainsSub (p.name.toList.map Char.toLower) (q.toList.map Char.toLower) ||
    (match p.description with
     | some d => listContainsSub (d.toList.map Char.toLower) (q.toList.map Char.toLower)
     | none => false)

/-! ## Auxiliary accessors and predicates for the claims -/

/-- The machine-readable failure code of an `upload_image` result, if
the result is a failure. -/
def failCode : UploadResult → Option String
  | .success _ _ _ => none
  | .failure c _ => some c

/-- Well-formedness of an `upload_image` return value, as claim C4
describes it: a success carries a non-empty URL (together with the
provider file identifier and a name), and a failure carries one of the
five machine-readable codes. -/
def uploadResultWellFormed : UploadResult → Prop
  | .success u _ _ => u ≠ ""
  | .failure c _ =>
      c = "not_configured" ∨ c = "empty_file" ∨ c = "empty_result" ∨
        c = "no_url" ∨ c = "exception"

/-- No file part was attached (either the field is absent or the part
has an empty filename, as browsers submit for an empty file input). -/
def noFileChosen : Option UploadFile → Prop
  | none => True
  | some f => fileChosen f = false

instance : DecidablePred noFileChosen := fun o =>
  match o with
  | none => Decidable.isTrue trivial
  | some f => inferInstanceAs (Decidable (fileChosen f = false))

/-- The record `edit_product` commits when the image is kept: every
submitted field replaced, image fields inherited from the pre-edit
record. -/
def editedKeep (form : EditForm) (prod : Product) (d : DecNum) (now : Nat) : Product :=
  { prod with
      name := pyStrip (form.product_name.getD "")
      description := some (pyStrip (form.description.getD ""))
      category := some (pyStrip (form.category.getD "other"))
      price := d
      quantity := quantityOf (pyStrip (form.quantity.getD "0"))
      updated_at := now }

/-! ## Concrete instances used by witnesses and counterexamples -/

/-- An unconfigured provider state (no credentials). -/
def cfgUnconfigured : IKConfig :=
  { publicKey := none, privateKey := none, urlEndpoint := none
    sdkAvailable := true, initOk := true }

/-- A fully configured provider state. -/
def cfgConfigured : IKConfig :=
  { publicKey := some "public_key_value_1234"
    privateKey := some "private_key_value_5678"
    urlEndpoint := some "https://ik.imagekit.io/plantshub"
    sdkAvailable := true, initOk := true }

/-- A misconfigured provider state (private key missing) whose other
credentials are set — the state in which `/upload` answers with the
masked configuration. -/
def cfgMissingKey : IKConfig :=
  { publicKey := some "public_key_value_1234"
    privateKey := none
    urlEndpoint := some "https://ik.imagekit.io/plantshub"
    sdkAvailable := true, initOk := true }

/-- A zero-byte attached file. -/
def fileEmpty : UploadFile :=
  { filename := some "a.png", nameAttr := none, size := 0 }

/-- A stored product with a provider-hosted image. -/
def prodRose : Product :=
  { id := 1, name := "Rose", description := none, category := some "other"
    price := ⟨100, 0⟩, quantity := 1, image_url := some "https://ik.imagekit.io/plantshub/rose.png"
    image_file_id := some "fileid-6", created_at := 0, updated_at := 0 }

/-- A product whose name matches the LIKE pattern of the search text
`100%` without containing it as a substring. -/
def prodC1 : Product :=
  { id := 1, name := "1003", description := none, category := some "other"
    price := ⟨100, 0⟩, quantity := 1, image_url := none, image_file_id := none
    created_at := 0, updated_at := 0 }

/-- The add form of the `price:"-5"` scenario. -/
def formC2 : AddForm :=
  { product_name := some "Aloe", price := some "-5", description := some ""
    category := some "indoor_plant", quantity := some "5"
    uploaded_image_url := none, uploaded_image_id := none, image := none }

/-- The record the first revision's add handler commits for `formC2`. -/
def prodC2 : Product :=
  { id := 1, name := "Aloe", description := some "", category := some "indoor_plant"
    price := ⟨-5, 0⟩, quantity := 5, image_url := none, image_file_id := none
    created_at := 100, updated_at := 100 }

/-- Two products sharing one creation time, inserted in this order. -/
def pC7a : Product :=
  { id := 1, name := "Fern", description := none, category := some "indoor_plant"
    price := ⟨100, 0⟩, quantity := 1, image_url := none, image_file_id := none
    created_at := 5, updated_at := 5 }

/-- The later-inserted product with the same creation time as `pC7a`. -/
def pC7b : Product :=
  { id := 2, name := "Ivy", description := none, category := some "indoor_plant"
    price := ⟨120, 0⟩, quantity := 1, image_url := none, image_file_id := none
    created_at := 5, updated_at := 5 }

/-- An edit form keeping the image and attaching no file. -/
def formC5 : EditForm :=
  { product_name := some "Rose Deluxe", price := some "250", description := some "red"
    category := some "outdoor_plant", quantity := some "3", keep_image := some "yes"
    uploaded_image_url := none, uploaded_image_id := none, image := none }

/-! ## Lemmas about the query builder -/

/-- Membership in the search filter is membership plus its clause. -/
theorem mem_searchFilter {sq : String} {l : List Product} {p : Product} :
    p ∈ searchFilter sq l ↔ p ∈ l ∧ searchClause sq p = true := by
  unfold searchFilter searchClause
  by_cases h : sq = "" <;> simp [h, List.mem_filter]

/-- Membership in the category filter is membership plus its clause. -/
theorem mem_categoryFilter {cat : String} {l : List Product} {p : Product} :
    p ∈ categoryFilter cat l ↔ p ∈ l ∧ categoryClause cat p = true := by
  unfold categoryFilter categoryClause
  by_cases h : cat ≠ "" ∧ cat ≠ "all" <;> simp [h, List.mem_filter]

/-- Membership in the lower-price filter is membership plus its clause. -/
theorem mem_priceLowFilter {mn : String} {l : List Product} {p : Product} :
    p ∈ priceLowFilter mn l ↔ p ∈ l ∧ priceLowClause mn p = true := by
  unfold priceLowFilter priceLowClause
  by_cases h : mn = ""
  · simp [h]
  · rcases hf : pyFloat? mn with _ | v <;> simp [h, hf, List.mem_filter]

/-- Membership in the upper-price filter is membership plus its clause. -/
theorem mem_priceHighFilter {mx : String} {l : List Product} {p : Product} :
    p ∈ priceHighFilter mx l ↔ p ∈ l ∧ priceHighClause mx p = true := by
  unfold priceHighFilter priceHighClause
  by_cases h : mx = ""
  · simp [h]
  · rcases hf : pyFloat? mx with _ | v <;> simp [h, hf, List.mem_filter]

/-- The sequentially built query matches exactly the conjunction of the
four clauses. -/
theorem mem_indexFiltered {table : List Product} {ps : IndexParams} {p : Product} :
    p ∈ indexFiltered table ps ↔
      p ∈ table ∧ matchesFilters ps.search ps.category ps.min_price ps.max_price p = true := by
  unfold indexFiltered matchesFilters
  rw [mem_priceHighFilter, mem_priceLowFilter, mem_categoryFilter, mem_searchFilter]
  simp only [Bool.and_eq_true]
  tauto

/-- Membership in the rendered product list. -/
theorem mem_indexProducts {table : List Product} {ps : IndexParams} {p : Product} :
    p ∈ indexProducts table ps ↔
      p ∈ table ∧ matchesFilters ps.search ps.category ps.min_price ps.max_price p = true := by
  unfold indexProducts
  rw [List.mem_insertionSort]
  exact mem_indexFiltered

/-- An unparseable bound leaves the lower-price filter inert. -/
theorem priceLowFilter_malformed {mn : String} {l : List Product}
    (h : pyFloat? mn = none) : priceLowFilter mn l = l := by
  unfold priceLowFilter
  by_cases he : mn = "" <;> simp [he, h]

/-- An unparseable bound leaves the upper-price filter inert. -/
theorem priceHighFilter_malformed {mx : String} {l : List Product}
    (h : pyFloat? mx = none) : priceHighFilter mx l = l := by
  unfold priceHighFilter
  by_cases he : mx = "" <;> simp [he, h]

/-- The conditionally applied search filter is the unconditional
filter by its clause. -/
theorem searchFilter_eq_filter (sq : String) (l : List Product) :
    searchFilter sq l = l.filter (searchClause sq) := by
  unfold searchFilter searchClause
  by_cases h : sq = "" <;> simp [h]

/-- The conditionally applied category filter is the unconditional
filter by its clause. -/
theorem categoryFilter_eq_filter (cat : String) (l : List Product) :
    categoryFilter cat l = l.filter (categoryClause cat) := by
  unfold categoryFilter categoryClause
  by_cases h : cat ≠ "" ∧ cat ≠ "all" <;> simp [h]

/-- The conditionally applied lower-price filter is the unconditional
filter by its clause. -/
theorem priceLowFilter_eq_filter (mn : String) (l : List Product) :
    priceLowFilter mn l = l.filter (priceLowClause mn) := by
  unfold priceLowFilter priceLowClause
  by_cases h : mn = ""
  · simp [h]
  · rcases hf : pyFloat? mn with _ | v <;> simp [h, hf]

/-- The conditionally applied upper-price filter is the unconditional
filter by its clause. -/
theorem priceHighFilter_eq_filter (mx : String) (l : List Product) :
    priceHighFilter mx l = l.filter (priceHighClause mx) := by
  unfold priceHighFilter priceHighClause
  by_cases h : mx = ""
  · simp [h]
  · rcases hf : pyFloat? mx with _ | v <;> simp [h, hf]

/-- As lists (hence also as ordered sequences), the sequentially built
query equals the single filter of the table by the conjunction of the
four clauses. -/
theorem indexFiltered_eq_filter (table : List Product) (ps : IndexParams) :
    indexFiltered table ps =
      table.filter
        (fun p => matchesFilters ps.search ps.category ps.min_price ps.max_price p) := by
  unfold indexFiltered matchesFilters
  dsimp only
  rw [searchFilter_eq_filter, categoryFilter_eq_filter, priceLowFilter_eq_filter,
    priceHighFilter_eq_filter, List.filter_filter, List.filter_filter, List.filter_filter]
  apply List.filter_congr
  intro p hp
  cases searchClause (pyStrip ps.search) p <;>
    cases categoryClause (if pyStrip ps.category = "" then "all" else pyStrip ps.category) p <;>
      cases priceLowClause (pyStrip ps.min_price) p <;>
        cases priceHighClause (pyStrip ps.max_price) p <;> rfl

/-- Powers of ten are positive. -/
theorem pow10_pos (n : Nat) : 0 < pow10 n := by
  induction n with
  | zero => simp [pow10]
  | succ n ih =>
    unfold pow10
    omega

/-- Sanity check for the scaled-decimal order: the cross-multiplied
comparison agrees with the rational values. -/
theorem DecNum.ble_iff_toRat (a b : DecNum) :
    DecNum.ble a b = true ↔ a.toRat ≤ b.toRat := by
  unfold DecNum.ble DecNum.toRat
  rw [decide_eq_true_iff]
  have ha : (0 : ℚ) < ((pow10 a.scale : Nat) : ℚ) := by exact_mod_cast pow10_pos a.scale
  have hb : (0 : ℚ) < ((pow10 b.scale : Nat) : ℚ) := by exact_mod_cast pow10_pos b.scale
  rw [div_le_div_iff₀ ha hb]
  constructor <;> intro h <;> exact_mod_cast h

/-! ## Claim C1 -/

/-- Claim C1, amended: for every combination of the optional filter
parameters, the catalog listing returns exactly the products satisfying
the conjunction of the supplied predicates, where the search predicate
is the code's case-insensitive LIKE match of the pattern
`%search%` against name or description (so `%` and `_` inside the
search text act as wildcards rather than literal characters), the
category predicate is equality (with `all` or empty meaning no filter)
and the price bounds are inclusive; a malformed `min_price` /
`max_price` string is treated exactly as if that bound were absent —
never as an error or an empty result. -/
theorem C1_filter_conjunction (table : List Product) (s c mn mx : String) :
    (∀ p : Product, p ∈ indexProducts table ⟨s, c, mn, mx⟩ ↔
        p ∈ table ∧ matchesFilters s c mn mx p = true) ∧
    (pyFloat? (pyStrip mn) = none →
      indexProducts table ⟨s, c, mn, mx⟩ = indexProducts table ⟨s, c, "", mx⟩) ∧
    (pyFloat? (pyStrip mx) = none →
      indexProducts table ⟨s, c, mn, mx⟩ = indexProducts table ⟨s, c, mn, ""⟩) := by
  have hempty : pyFloat? (pyStrip "") = none := by decide
  refine ⟨fun p => mem_indexProducts, ?_, ?_⟩
  · intro h
    unfold indexProducts indexFiltered
    dsimp only
    rw [priceLowFilter_malformed h, priceLowFilter_malformed hempty]
  · intro h
    unfold indexProducts indexFiltered
    dsimp only
    rw [priceHighFilter_malformed h, priceHighFilter_malformed hempty]

/-- Witness for C1 at concrete inputs (including a malformed bound). -/
theorem C1_filter_conjunction_witness :
    (prodC1 ∈ indexProducts [prodC1] ⟨"", "", "", ""⟩ ↔
      prodC1 ∈ [prodC1] ∧ matchesFilters "" "" "" "" prodC1 = true) ∧
    indexProducts [prodC1] ⟨"", "", "abc", ""⟩ = indexProducts [prodC1] ⟨"", "", "", ""⟩ :=
  ⟨(C1_filter_conjunction [prodC1] "" "" "" "").1 prodC1,
    (C1_filter_conjunction [prodC1] "" "" "abc" "").2.1 (by decide)⟩

/-- Counterexample to C1 as stated: with only the search filter
supplied (`search="100%"`), the listing returns a product (name
`1003`) that does not satisfy the claimed case-insensitive substring
predicate — `%` in the search text acts as a LIKE wildcard. -/
theorem C1_counterexample :
    prodC1 ∈ indexProducts [prodC1] ⟨"100%", "", "", ""⟩ ∧
    specSearchMatch "100%" prodC1 = false := by decide

/-! ## Claim C7 -/

/-- The reversal of the two equal-timestamp products is an admissible
result of the unfiltered catalog query. -/
theorem pC7_swap_admissible :
    isIndexQueryResult [pC7a, pC7b] ⟨"", "", "", ""⟩ [pC7b, pC7a] := by
  constructor
  · have h : indexFiltered [pC7a, pC7b] ⟨"", "", "", ""⟩ = [pC7a, pC7b] := by decide
    rw [h]
    exact List.Perm.swap pC7a pC7b []
  · simp [List.sorted_cons, createdDesc, pC7a, pC7b]

/-- Claim C7, amended: every admissible result of the catalog query is
sorted by creation time descending and is exactly the full matching
set (a permutation of the filter of the table by the conjunction of
the supplied predicates — no pagination), and the rendered list is one
such admissible result; the bare `ORDER BY created_at DESC` fixes no
order between equal creation times, so the claimed insertion-order
(stable-sort) tie-break is not guaranteed by the program. -/
theorem C7_query_order (table : List Product) (ps : IndexParams) :
    isIndexQueryResult table ps (indexProducts table ps) ∧
    (∀ out : List Product, isIndexQueryResult table ps out →
      List.Sorted createdDesc out ∧
      List.Perm out
        (table.filter
          (fun p => matchesFilters ps.search ps.category ps.min_price ps.max_price p)) ∧
      (∀ p : Product, p ∈ out ↔
        p ∈ table ∧ matchesFilters ps.search ps.category ps.min_price ps.max_price p = true)) := by
  constructor
  · exact ⟨List.perm_insertionSort createdDesc _, List.sorted_insertionSort createdDesc _⟩
  · rintro out ⟨hperm, hsort⟩
    refine ⟨hsort, ?_, ?_⟩
    · rw [← indexFiltered_eq_filter]
      exact hperm
    · intro p
      rw [hperm.mem_iff]
      exact mem_indexFiltered

/-- Witness for C7 at a concrete admissible query result. -/
theorem C7_query_order_witness :
    List.Sorted createdDesc [pC7b, pC7a] ∧
    List.Perm [pC7b, pC7a]
      ([pC7a, pC7b].filter (fun p => matchesFilters "" "" "" "" p)) ∧
    (∀ p : Product, p ∈ [pC7b, pC7a] ↔
      p ∈ [pC7a, pC7b] ∧ matchesFilters "" "" "" "" p = true) :=
  (C7_query_order [pC7a, pC7b] ⟨"", "", "", ""⟩).2 [pC7b, pC7a] pC7_swap_admissible

/-- Counterexample to C7 as stated: two products with equal creation
times can come back in the reverse of their insertion order — the
reversed list is an admissible result of the executed query, so the
stable tie-break the claim states is not a property of the program. -/
theorem C7_counterexample :
    pC7a.created_at = pC7b.created_at ∧
    isIndexQueryResult [pC7a, pC7b] ⟨"", "", "", ""⟩ [pC7b, pC7a] ∧
    [pC7b, pC7a] ≠ [pC7a, pC7b] :=
  ⟨rfl, pC7_swap_admissible, by decide⟩

/-! ## Claim C8 -/

/-- Claim C8: the autocomplete suggestion list is computed from the
entire table and is unaffected by the currently supplied filters; it
contains exactly the distinct product names, each once, sorted
case-insensitively. -/
theorem C8_suggestions (table : List Product) (ps ps' : IndexParams) :
    (indexPage table ps).2 = (indexPage table ps').2 ∧
    List.Sorted casefoldLe (indexSuggestions table) ∧
    (indexSuggestions table).Nodup ∧
    (∀ n : String, n ∈ indexSuggestions table ↔ n ∈ table.map (fun p => p.name)) := by
  refine ⟨rfl, List.sorted_insertionSort casefoldLe _, ?_, ?_⟩
  · exact ((List.perm_insertionSort casefoldLe _).nodup_iff).mpr (List.nodup_dedup _)
  · intro n
    unfold indexSuggestions
    rw [List.mem_insertionSort, List.mem_dedup]

/-! ## Claim C2 -/

/-- Claim C2 evaluated on the code (code bug): the first revision's add
handler (app.py lines 172-238) parses `price="-5"` with no negative
check and commits the record with price `-5` — no rejection, no
validation message — while the second revision's price validation
(app.py lines 706-717) rejects the same input, as do the edit handler
of the first revision and the spec's validation taxonomy. -/
theorem C2_code_bug_eval :
    add_product cfgUnconfigured (.returns .falsy) formC2 [] 1 100 =
      (.created prodC2, [prodC2]) ∧
    prodC2.price = { num := -5, scale := 0 } ∧
    pfNeg (.fin prodC2.price) = true ∧
    validate_price_add_v2 (some "-5") = .negativeRejected := by decide

/-! ## Claim C3 -/

/-- Claim C3, amended: for every stored file-like input whose stream is
zero bytes, the provider network call `upload_file` is never made; and
provided the provider is configured, the returned structured failure
has code `empty_file`.  (With the provider unconfigured, the earlier
guard answers `not_configured` instead — see the counterexample.) -/
theorem C3_empty_file (cfg : IKConfig) (f : UploadFile) (beh : SdkBehavior)
    (hsize : f.size = 0) :
    (upload_image cfg f beh).2 = false ∧
    (is_configured cfg = true →
      (upload_image cfg f beh).1 = .failure "empty_file" "The uploaded file is empty") := by
  unfold upload_image
  by_cases hc : is_configured cfg <;> simp [hc, hsize]

/-- Witness for C3 with a configured provider and a zero-byte file. -/
theorem C3_empty_file_witness :
    (upload_image cfgConfigured fileEmpty (.returns .falsy)).2 = false ∧
    (upload_image cfgConfigured fileEmpty (.returns .falsy)).1 =
      .failure "empty_file" "The uploaded file is empty" := by
  have h := C3_empty_file cfgConfigured fileEmpty (.returns .falsy) (by decide)
  exact ⟨h.1, h.2 (by decide)⟩

/-- Counterexample to C3 as stated: with the provider unconfigured, a
zero-byte upload fails with code `not_configured`, not `empty_file`
(no network call is made either way). -/
theorem C3_counterexample :
    fileEmpty.size = 0 ∧
    failCode (upload_image cfgUnconfigured fileEmpty (.returns .falsy)).1 =
      some "not_configured" ∧
    some "not_configured" ≠ some "empty_file" := by decide

/-! ## Claim C4 -/

/-- Claim C4: `upload_image` is a total function of the provider oracle
— nothing raises past its boundary — and every return value is either a
success record with a non-empty URL, a provider file identifier and a
name, or a structured failure whose code is one of `not_configured`,
`empty_file`, `empty_result`, `no_url`, `exception`; when the provider
is unconfigured, the result is the `not_configured` failure and no
network call is attempted. -/
theorem C4_upload_total (cfg : IKConfig) (f : UploadFile) (beh : SdkBehavior) :
    uploadResultWellFormed (upload_image cfg f beh).1 ∧
    (is_configured cfg = false →
      (upload_image cfg f beh).1 =
        .failure "not_configured" "ImageKit not configured. Check environment variables." ∧
      (upload_image cfg f beh).2 = false) := by
  constructor
  · by_cases hc : is_configured cfg
    · by_cases hz : f.size = 0
      · simp [upload_image, hc, hz, uploadResultWellFormed]
      · rcases beh with msg | r
        · simp [upload_image, hc, hz, uploadResultWellFormed]
        · rcases r with _ | ⟨url, fid, nm⟩ | ⟨url, fid, nm⟩ | ⟨url, fid, nm⟩ | _
          · simp [upload_image, hc, hz, uploadResultWellFormed]
          · rcases url with _ | u
            · simp [upload_image, hc, hz, extractFields, uploadResultWellFormed]
            · by_cases hu : u = "" <;>
                simp [upload_image, hc, hz, hu, extractFields, uploadResultWellFormed]
          · rcases url with _ | u
            · simp [upload_image, hc, hz, extractFields, uploadResultWellFormed]
            · by_cases hu : u = "" <;>
                simp [upload_image, hc, hz, hu, extractFields, uploadResultWellFormed]
          · rcases url with _ | u
            · simp [upload_image, hc, hz, extractFields, uploadResultWellFormed]
            · by_cases hu : u = "" <;>
                simp [upload_image, hc, hz, hu, extractFields, uploadResultWellFormed]
          · simp [upload_image, hc, hz, extractFields, uploadResultWellFormed]
    · simp [upload_image, hc, uploadResultWellFormed]
  · intro h
    constructor <;> simp [upload_image, h]

/-- Witness for C4 at an unconfigured provider state. -/
theorem C4_upload_total_witness :
    (upload_image cfgUnconfigured fileEmpty (.returns .falsy)).1 =
      .failure "not_configured" "ImageKit not configured. Check environment variables." ∧
    (upload_image cfgUnconfigured fileEmpty (.returns .falsy)).2 = false :=
  (C4_upload_total cfgUnconfigured fileEmpty (.returns .falsy)).2 (by decide)

/-! ## Claim C5 -/

/-- Claim C5: for every existing product, submitting the edit form with
`keep_image="yes"`, no new file attached and no pre-uploaded URL leaves
`image_url` and `image_file_id` identical to their pre-edit values
(the committed record inherits them untouched, and no provider delete
is requested), while the other submitted fields are updated. -/
theorem C5_keep_image (cfg : IKConfig) (upBeh : SdkBehavior) (delBeh : DeleteBehavior)
    (form : EditForm) (table : List Product) (pid : Nat) (now : Nat)
    (prod : Product) (d : DecNum)
    (hfind : table.find? (fun p => p.id == pid) = some prod)
    (hkeep : form.keep_image = some "yes")
    (hurl : pyStrip (form.uploaded_image_url.getD "") = "")
    (hfile : noFileChosen form.image)
    (hname : pyStrip (form.product_name.getD "") ≠ "")
    (hprice : pyFloat? (pyStrip (form.price.getD "")) = some (.fin d))
    (hnneg : pfNeg (.fin d) = false) :
    edit_product cfg upBeh delBeh form table pid now =
      (.updated (editedKeep form prod d now),
        table.map (fun q => if q.id == pid then editedKeep form prod d now else q), []) ∧
    (editedKeep form prod d now).image_url = prod.image_url ∧
    (editedKeep form prod d now).image_file_id = prod.image_file_id ∧
    (editedKeep form prod d now).created_at = prod.created_at ∧
    (editedKeep form prod d now).id = prod.id ∧
    (editedKeep form prod d now).name = pyStrip (form.product_name.getD "") ∧
    (editedKeep form prod d now).description = some (pyStrip (form.description.getD "")) ∧
    (editedKeep form prod d now).category = some (pyStrip (form.category.getD "other")) ∧
    (editedKeep form prod d now).price = d ∧
    (editedKeep form prod d now).quantity = quantityOf (pyStrip (form.quantity.getD "0")) ∧
    (editedKeep form prod d now).updated_at = now := by
  have hkeepb : (form.keep_image == some "yes") = true := by rw [hkeep]; rfl
  refine ⟨?_, rfl, rfl, rfl, rfl, rfl, rfl, rfl, rfl, rfl, rfl⟩
  rcases himg : form.image with _ | f
  · simp [edit_product, hfind, hname, hprice, hnneg, hkeepb, hurl, himg, editedKeep]
  · have hf : fileChosen f = false := by
      unfold noFileChosen at hfile
      rw [himg] at hfile
      exact hfile
    simp [edit_product, hfind, hname, hprice, hnneg, hkeepb, hurl, himg, hf, editedKeep]

/-- Witness for C5 at concrete inputs. -/
theorem C5_keep_image_witness :
    edit_product cfgConfigured (.returns .falsy) .succeeds formC5 [prodRose] 1 77 =
      (.updated (editedKeep formC5 prodRose ⟨250, 0⟩ 77),
        [prodRose].map (fun q => if q.id == 1 then editedKeep formC5 prodRose ⟨250, 0⟩ 77 else q),
        []) ∧
    (editedKeep formC5 prodRose ⟨250, 0⟩ 77).image_url = prodRose.image_url ∧
    (editedKeep formC5 prodRose ⟨250, 0⟩ 77).image_file_id = prodRose.image_file_id := by
  have h := C5_keep_image cfgConfigured (.returns .falsy) .succeeds formC5 [prodRose] 1 77
    prodRose ⟨250, 0⟩ (by decide) (by decide) (by decide) (by decide) (by decide)
    (by decide) (by decide)
  exact ⟨h.1, h.2.1, h.2.2.1⟩

/-! ## Claim C6 -/

/-- Claim C6, amended: for every product whose `image_file_id` is set,
the delete flow invokes the gateway delete exactly once with exactly
that identifier — which performs exactly one provider `delete_file`
call when the provider is configured, and none when it is not — and
the database record is deleted regardless of the provider call's
outcome (the delete oracle is universally quantified, covering both
success and a raised provider exception). -/
theorem C6_delete_flow (cfg : IKConfig) (delBeh : DeleteBehavior) (table : List Product)
    (pid : Nat) (prod : Product) (fid : String)
    (hfind : table.find? (fun p => p.id == pid) = some prod)
    (hfid : prod.image_file_id = some fid) (hne : fid ≠ "") :
    delete_product cfg delBeh table pid =
      (.deleted prod.name, table.eraseP (fun q => q.id == pid),
        if is_configured cfg = true then [fid] else []) := by
  unfold delete_product delete_image
  rw [hfind]
  by_cases hc : is_configured cfg
  · rcases delBeh <;> simp [hc, hfid, optTruthy, hne]
  · simp [hc, hfid, optTruthy, hne]

/-- Witness for C6 with a configured provider whose delete call
raises: the record is still deleted and exactly one provider call with
the stored identifier was made. -/
theorem C6_delete_flow_witness :
    delete_product cfgConfigured (.raises "network down") [prodRose] 1 =
      (.deleted "Rose", [], ["fileid-6"]) := by
  have h := C6_delete_flow cfgConfigured (.raises "network down") [prodRose] 1 prodRose
    "fileid-6" (by decide) (by decide) (by decide)
  rw [h]
  decide

/-- Counterexample to C6 as stated: with the provider unconfigured, the
delete flow of a product whose `image_file_id` is set performs zero
provider delete calls (the record is still deleted). -/
theorem C6_counterexample :
    prodRose.image_file_id = some "fileid-6" ∧
    delete_product cfgUnconfigured .succeeds [prodRose] 1 =
      (.deleted "Rose", [], []) := by decide

/-! ## Claim C10 -/

/-- Claim C10, amended: `masked_config` maps each of the two keys
through redaction — a missing (or empty) value to `None`, a non-empty
value of length at most 6 to the literal `***`, and a longer value to
its first three characters plus `***` plus its last three characters —
but passes `url_endpoint` through unredacted; this output is exactly
what the configuration-related `/upload` error response exposes. -/
theorem C10_masked_config (cfg : IKConfig) :
    (masked_config cfg).public_key = redact cfg.publicKey ∧
    (masked_config cfg).private_key = redact cfg.privateKey ∧
    (masked_config cfg).url_endpoint = cfg.urlEndpoint ∧
    redact none = none ∧
    redact (some "") = none ∧
    (∀ s : String, s ≠ "" → s.length ≤ 6 → redact (some s) = some "***") ∧
    (∀ s : String, 6 < s.length → redact (some s) = some (strTake3 s ++ "***" ++ strLast3 s)) ∧
    (∀ (beh : SdkBehavior) (file? : Option UploadFile), is_configured cfg = false →
      api_upload_image cfg beh file? = .notConfigured (masked_config cfg)) := by
  refine ⟨rfl, rfl, rfl, rfl, by decide, ?_, ?_, ?_⟩
  · intro s h1 h2
    simp only [redact]
    rw [if_neg h1, if_pos h2]
  · intro s h
    have h1 : s ≠ "" := by
      intro he
      rw [he] at h
      simp at h
    simp only [redact]
    rw [if_neg h1, if_neg (by omega)]
  · intro beh file? h
    unfold api_upload_image
    simp [h]

/-- Witness for C10: a long key is clipped to its ends, and the
misconfigured `/upload` response carries the masked configuration. -/
theorem C10_masked_config_witness :
    redact (some "public_key_value_1234") =
      some (strTake3 "public_key_value_1234" ++ "***" ++ strLast3 "public_key_value_1234") ∧
    api_upload_image cfgMissingKey (.returns .falsy) none =
      .notConfigured (masked_config cfgMissingKey) := by
  obtain ⟨-, -, -, -, -, -, h7, h8⟩ := C10_masked_config cfgMissingKey
  exact ⟨h7 "public_key_value_1234" (by decide), h8 (.returns .falsy) none (by decide)⟩

/-- Counterexample to C10 as stated: the configuration-related error
response of `/upload` exposes the `url_endpoint` credential in full —
`masked_config` returns it unredacted. -/
theorem C10_counterexample :
    cfgMissingKey.urlEndpoint = some "https://ik.imagekit.io/plantshub" ∧
    api_upload_image cfgMissingKey (.returns .falsy) none =
      .notConfigured
        { public_key := some "pub***234", private_key := none
          url_endpoint := some "https://ik.imagekit.io/plantshub" } := by decide

/-! ## Lemmas about the quantity handling -/

/-- The computed quantity is never negative. -/
theorem quantityOf_nonneg (s : String) : 0 ≤ quantityOf s := by
  unfold quantityOf
  rcases h : pyInt? s with _ | n
  · simp
  · by_cases hn : n < 0 <;> simp [hn]
    omega

/-- An unparseable quantity string yields 0. -/
theorem quantityOf_unparseable {s : String} (h : pyInt? s = none) : quantityOf s = 0 := by
  unfold quantityOf
  rw [h]

/-- A parsed negative quantity yields 0. -/
theorem quantityOf_negative {s : String} {n : Int} (h : pyInt? s = some n) (hn : n < 0) :
    quantityOf s = 0 := by
  unfold quantityOf
  rw [h]
  simp [hn]

/-- The quantity string cannot change whether `add_product` accepts the
submission. -/
theorem add_kindTag_quantity (cfg : IKConfig) (beh : SdkBehavior) (form : AddForm)
    (table : List Product) (i now : Nat) (q1 q2 : Option String) :
    ((add_product cfg beh { form with quantity := q1 } table i now).1).kindTag =
      ((add_product cfg beh { form with quantity := q2 } table i now).1).kindTag := by
  by_cases h1 : pyStrip (form.product_name.getD "") = ""
  · simp [add_product, h1]
  · rcases hp : pyFloat? (pyStrip (form.price.getD "")) with _ | pv
    · simp [add_product, h1, hp]
    · rcases pv with d | b | _
      · by_cases h2 : pyStrip (form.uploaded_image_url.getD "") = ""
        · rcases himg : form.image with _ | f
          · simp [add_product, h1, hp, h2, himg, AddOutcome.kindTag]
          · by_cases hfc : fileChosen f = true
            · by_cases hal : allowed_file (formFileName f) = true
              · rcases hu : (upload_image cfg f beh).1 with ⟨u, fid, nm⟩ | ⟨c, m⟩ <;>
                  simp [add_product, h1, hp, h2, himg, hfc, hal, hu, AddOutcome.kindTag]
              · simp [add_product, h1, hp, h2, himg, hfc, hal, AddOutcome.kindTag]
            · simp [add_product, h1, hp, h2, himg, hfc, AddOutcome.kindTag]
        · simp [add_product, h1, hp, h2, AddOutcome.kindTag]
      · simp [add_product, h1, hp, AddOutcome.kindTag]
      · simp [add_product, h1, hp, AddOutcome.kindTag]

/-- Whatever `add_product` commits stores the computed quantity. -/
theorem add_created_quantity (cfg : IKConfig) (beh : SdkBehavior) (form : AddForm)
    (table : List Product) (i now : Nat) (p : Product)
    (h : (add_product cfg beh form table i now).1 = .created p) :
    p.quantity = quantityOf (pyStrip (form.quantity.getD "0")) := by
  by_cases h1 : pyStrip (form.product_name.getD "") = ""
  · simp [add_product, h1] at h
  · rcases hp : pyFloat? (pyStrip (form.price.getD "")) with _ | pv
    · simp [add_product, h1, hp] at h
    · rcases pv with d | b | _
      · by_cases h2 : pyStrip (form.uploaded_image_url.getD "") = ""
        · rcases himg : form.image with _ | f
          · simp [add_product, h1, hp, h2, himg] at h
            subst h
            rfl
          · by_cases hfc : fileChosen f = true
            · by_cases hal : allowed_file (formFileName f) = true
              · rcases hu : (upload_image cfg f beh).1 with ⟨u, fid, nm⟩ | ⟨c, m⟩ <;>
                  simp [add_product, h1, hp, h2, himg, hfc, hal, hu] at h <;>
                  subst h <;> rfl
              · simp [add_product, h1, hp, h2, himg, hfc, hal] at h
            · simp [add_product, h1, hp, h2, himg, hfc] at h
              subst h
              rfl
        · simp [add_product, h1, hp, h2] at h
          subst h
          rfl
      · simp [add_product, h1, hp] at h
      · simp [add_product, h1, hp] at h

/-- The quantity string cannot change whether `edit_product` accepts
the submission. -/
theorem edit_kindTag_quantity (cfg : IKConfig) (upBeh : SdkBehavior)
    (delBeh : DeleteBehavior) (form : EditForm) (table : List Product)
    (pid now : Nat) (q1 q2 : Option String) :
    ((edit_product cfg upBeh delBeh { form with quantity := q1 } table pid now).1).kindTag =
      ((edit_product cfg upBeh delBeh { form with quantity := q2 } table pid now).1).kindTag := by
  rcases hfind : table.find? (fun p => p.id == pid) with _ | prod
  · simp [edit_product, hfind]
  · by_cases h1 : pyStrip (form.product_name.getD "") = ""
    · simp [edit_product, hfind, h1]
    · rcases hp : pyFloat? (pyStrip (form.price.getD "")) with _ | pv
      · simp [edit_product, hfind, h1, hp]
      · by_cases hn : pfNeg pv = true
        · simp [edit_product, hfind, h1, hp, hn]
        · rcases pv with d | b | _
          · by_cases h2 : pyStrip (form.uploaded_image_url.getD "") = ""
            · rcases himg : form.image with _ | f
              · simp [edit_product, hfind, h1, hp, hn, h2, himg, EditOutcome.kindTag]
              · by_cases hfc : fileChosen f = true
                · by_cases hal : allowed_file (formFileName f) = true
                  · rcases hu : (upload_image cfg f upBeh).1 with ⟨u, fid, nm⟩ | ⟨c, m⟩ <;>
                      simp [edit_product, hfind, h1, hp, hn, h2, himg, hfc, hal, hu,
                        EditOutcome.kindTag]
                  · simp [edit_product, hfind, h1, hp, hn, h2, himg, hfc, hal,
                      EditOutcome.kindTag]
                · simp [edit_product, hfind, h1, hp, hn, h2, himg, hfc, EditOutcome.kindTag]
            · simp [edit_product, hfind, h1, hp, hn, h2, EditOutcome.kindTag]
          · simp [edit_product, hfind, h1, hp, hn, EditOutcome.kindTag]
          · simp [edit_product, hfind, h1, hp, hn, EditOutcome.kindTag]

/-- Whatever `edit_product` commits stores the computed quantity. -/
theorem edit_updated_quantity (cfg : IKConfig) (upBeh : SdkBehavior)
    (delBeh : DeleteBehavior) (form : EditForm) (table : List Product)
    (pid now : Nat) (p : Product)
    (h : (edit_product cfg upBeh delBeh form table pid now).1 = .updated p) :
    p.quantity = quantityOf (pyStrip (form.quantity.getD "0")) := by
  rcases hfind : table.find? (fun q => q.id == pid) with _ | prod
  · simp [edit_product, hfind] at h
  · by_cases h1 : pyStrip (form.product_name.getD "") = ""
    · simp [edit_product, hfind, h1] at h
    · rcases hp : pyFloat? (pyStrip (form.price.getD "")) with _ | pv
      · simp [edit_product, hfind, h1, hp] at h
      · by_cases hn : pfNeg pv = true
        · simp [edit_product, hfind, h1, hp, hn] at h
        · rcases pv with d | b | _
          · by_cases h2 : pyStrip (form.uploaded_image_url.getD "") = ""
            · rcases himg : form.image with _ | f
              · simp [edit_product, hfind, h1, hp, hn, h2, himg] at h
                subst h
                rfl
              · by_cases hfc : fileChosen f = true
                · by_cases hal : allowed_file (formFileName f) = true
                  · rcases hu : (upload_image cfg f upBeh).1 with ⟨u, fid, nm⟩ | ⟨c, m⟩ <;>
                      simp [edit_product, hfind, h1, hp, hn, h2, himg, hfc, hal, hu] at h <;>
                      subst h <;> rfl
                  · simp [edit_product, hfind, h1, hp, hn, h2, himg, hfc, hal] at h
                · simp [edit_product, hfind, h1, hp, hn, h2, himg, hfc] at h
                  subst h
                  rfl
            · simp [edit_product, hfind, h1, hp, hn, h2] at h
              subst h
              rfl
          · simp [edit_product, hfind, h1, hp, hn] at h
          · simp [edit_product, hfind, h1, hp, hn] at h

/-! ## Claim C9 -/

/-- Claim C9: the add and edit flows never reject a submission because
of the quantity (the quantity string cannot change the outcome kind);
an unparseable quantity string and a parsed negative integer both
yield a stored quantity of 0, and the stored quantity is always a
non-negative integer. -/
theorem C9_quantity_never_rejected :
    (∀ s : String, 0 ≤ quantityOf s ∧
      (pyInt? s = none → quantityOf s = 0) ∧
      (∀ n : Int, pyInt? s = some n → n < 0 → quantityOf s = 0)) ∧
    (∀ (cfg : IKConfig) (beh : SdkBehavior) (form : AddForm) (table : List Product)
        (i now : Nat) (q1 q2 : Option String),
      ((add_product cfg beh { form with quantity := q1 } table i now).1).kindTag =
        ((add_product cfg beh { form with quantity := q2 } table i now).1).kindTag) ∧
    (∀ (cfg : IKConfig) (beh : SdkBehavior) (form : AddForm) (table : List Product)
        (i now : Nat) (p : Product),
      (add_product cfg beh form table i now).1 = .created p →
        p.quantity = quantityOf (pyStrip (form.quantity.getD "0")) ∧ 0 ≤ p.quantity) ∧
    (∀ (cfg : IKConfig) (upBeh : SdkBehavior) (delBeh : DeleteBehavior) (form : EditForm)
        (table : List Product) (pid now : Nat) (q1 q2 : Option String),
      ((edit_product cfg upBeh delBeh { form with quantity := q1 } table pid now).1).kindTag =
        ((edit_product cfg upBeh delBeh { form with quantity := q2 } table pid now).1).kindTag) ∧
    (∀ (cfg : IKConfig) (upBeh : SdkBehavior) (delBeh : DeleteBehavior) (form : EditForm)
        (table : List Product) (pid now : Nat) (p : Product),
      (edit_product cfg upBeh delBeh form table pid now).1 = .updated p →
        p.quantity = quantityOf (pyStrip (form.quantity.getD "0")) ∧ 0 ≤ p.quantity) := by
  refine ⟨?_, ?_, ?_, ?_, ?_⟩
  · intro s
    exact ⟨quantityOf_nonneg s, fun h => quantityOf_unparseable h,
      fun n h hn => quantityOf_negative h hn⟩
  · intro cfg beh form table i now q1 q2
    exact add_kindTag_quantity cfg beh form table i now q1 q2
  · intro cfg beh form table i now p h
    have hq := add_created_quantity cfg beh form table i now p h
    exact ⟨hq, hq ▸ quantityOf_nonneg _⟩
  · intro cfg upBeh delBeh form table pid now q1 q2
    exact edit_kindTag_quantity cfg upBeh delBeh form table pid now q1 q2
  · intro cfg upBeh delBeh form table pid now p h
    have hq := edit_updated_quantity cfg upBeh delBeh form table pid now p h
    exact ⟨hq, hq ▸ quantityOf_nonneg _⟩

/-- Witness for C9: unparseable and negative quantity strings store 0,
a plain one stores its value, and the concrete committed record carries
the computed quantity. -/
theorem C9_quantity_never_rejected_witness :
    quantityOf "abc" = 0 ∧ quantityOf "-2" = 0 ∧ 0 ≤ quantityOf "7" ∧
    prodC2.quantity = quantityOf (pyStrip (formC2.quantity.getD "0")) := by
  obtain ⟨hq, -, haddq, -, -⟩ := C9_quantity_never_rejected
  refine ⟨(hq "abc").2.1 (by decide), (hq "-2").2.2 (-2) (by decide) (by decide),
    (hq "7").1, ?_⟩
  exact (haddq cfgUnconfigured (.returns .falsy) formC2 [] 1 100 prodC2 (by decide)).1
